import Mathlib

/-!
# Verification of the website-tracking change-detection core

Shallow embedding of the change-detection pipeline of `website_tracker.py`:
the `normalize_content` regex pipeline, the MD5-based fingerprints
(`calculate_content_hash`, `calculate_meta_hash`), the per-URL check state
machine (`check_website_changes`) and the notification grouping
(`_group_changes_by_website`).

The Python code rewrites text with `re.sub`.  We embed a small backtracking
regex engine whose preference order (leftmost match; greedy quantifiers try
longer first, lazy ones shorter first; alternation tries the left branch
first) follows the Python `re` backtracking engine, and encode every pattern
of `normalize_content` as data for this engine, in the source order.  The
character classes `\d`, `\s`, `\w` and the `IGNORECASE` flag are modelled on
their ASCII parts (every input considered in this development is ASCII, where
the Python semantics and this model agree).
-/

namespace WebsiteTracker

/-- Regular expressions as matched by the embedded engine.  `cls` matches one
character satisfying a predicate, `star greedy r` is `r*` (greedy when the
flag is true, lazy otherwise), `wordB` is the zero-width `\b` assertion. -/
inductive RE where
  | eps : RE
  | cls : (Char → Bool) → RE
  | seq : RE → RE → RE
  | alt : RE → RE → RE
  | star : Bool → RE → RE
  | wordB : RE

/-- Word characters for `\b` (ASCII part of Python `\w`). -/
def isWordChar (c : Char) : Bool :=
  c.isAlphanum || c == '_'

/-- Whitespace characters (ASCII part of Python `\s`): space, tab, newline,
carriage return, form feed, vertical tab. -/
def isSpaceChar (c : Char) : Bool :=
  c == ' ' || c == '\t' || c == '\n' || c == '\x0d' || c == '\x0c' || c == '\x0b'

/-- The `\b` assertion holds when exactly one of the neighbouring characters
is a word character (a missing neighbour counts as non-word). -/
def atBoundary (prev next : Option Char) : Bool :=
  (match prev with | some c => isWordChar c | none => false)
    != (match next with | some c => isWordChar c | none => false)

/-- Backtracking matcher.  `mtch fuel r prev s` returns, in the engine's
preference order, every way `r` can consume a prefix of `s`; each result is
the pair of the new previous-character context and the remaining suffix.
`prev` is the character immediately before `s`, used by `wordB`.  The fuel
only bounds recursion depth; it is chosen large enough by the callers. -/
def mtch : Nat → RE → Option Char → List Char → List (Option Char × List Char)
  | 0, _, _, _ => []
  | _ + 1, RE.eps, p, s => [(p, s)]
  | _ + 1, RE.cls f, _, s =>
    match s with
    | [] => []
    | c :: rest => if f c then [(some c, rest)] else []
  | fuel + 1, RE.seq a b, p, s =>
    (mtch fuel a p s).flatMap fun pr => mtch fuel b pr.1 pr.2
  | fuel + 1, RE.alt a b, p, s => mtch fuel a p s ++ mtch fuel b p s
  | fuel + 1, RE.star g r, p, s =>
    let more := (mtch fuel r p s).flatMap fun pr =>
      if pr.2.length < s.length then mtch fuel (RE.star g r) pr.1 pr.2 else []
    if g then more ++ [(p, s)] else (p, s) :: more
  | _ + 1, RE.wordB, p, s => if atBoundary p s.head? then [(p, s)] else []

/-- Fuel that exceeds the recursion depth any pattern of this development can
reach on an input suffix `s` (patterns have fewer than a hundred nodes and
every quantified subpattern consumes at least one character per iteration). -/
def reFuel (s : List Char) : Nat := 200 * (s.length + 2)

/-- One pass of `re.sub`: scan left to right; at each position take the
engine's preferred match if any, emit the replacement and resume after the
match (patterns in this development never match the empty string), otherwise
copy one character.  `p` is the previous-character context for `\b`. -/
def subAux (re : RE) (repl : List Char) : Nat → Option Char → List Char → List Char
  | 0, _, s => s
  | fuel + 1, p, s =>
    match s with
    | [] => []
    | c :: rest =>
      match (mtch (reFuel s) re p s).head? with
      | some pr =>
        if pr.2.length < s.length then
          repl ++ subAux re repl fuel pr.1 pr.2
        else
          c :: subAux re repl fuel (some c) rest
      | none => c :: subAux re repl fuel (some c) rest

/-- `re.sub(pattern, repl, s)` with a literal replacement string. -/
def reSub (re : RE) (repl : String) (s : String) : String :=
  String.mk (subAux re repl.data (s.data.length + 1) none s.data)

/-- Literal character. -/
def rc (c : Char) : RE := RE.cls (· == c)

/-- Case-insensitive literal character (ASCII case folding). -/
def rci (c : Char) : RE := RE.cls (fun x => x.toLower == c.toLower)

/-- Literal string. -/
def rlit (s : String) : RE := s.data.foldr (fun c r => RE.seq (rc c) r) RE.eps

/-- Case-insensitive literal string. -/
def rlitCI (s : String) : RE := s.data.foldr (fun c r => RE.seq (rci c) r) RE.eps

/-- Sequence of a list of regexes. -/
def rseq (l : List RE) : RE := l.foldr RE.seq RE.eps

/-- Greedy `r?`. -/
def ropt (r : RE) : RE := RE.alt r RE.eps

/-- Greedy `r+`. -/
def rplus (r : RE) : RE := RE.seq r (RE.star true r)

/-- Exactly `n` copies of `r`. -/
def rrep (n : Nat) (r : RE) : RE :=
  match n with
  | 0 => RE.eps
  | n + 1 => RE.seq r (rrep n r)

/-- Greedy `r{0,n}`: prefers more copies first. -/
def rupTo (n : Nat) (r : RE) : RE :=
  match n with
  | 0 => RE.eps
  | n + 1 => RE.alt (RE.seq r (rupTo n r)) RE.eps

/-- Greedy `r{m,n}`. -/
def rrange (m n : Nat) (r : RE) : RE := RE.seq (rrep m r) (rupTo (n - m) r)

/-- Greedy `r{m,}`. -/
def ratLeast (m : Nat) (r : RE) : RE := RE.seq (rrep m r) (RE.star true r)

/-- `\d` (ASCII). -/
def rdigit : RE := RE.cls Char.isDigit

/-- `\s` (ASCII). -/
def rspace : RE := RE.cls isSpaceChar

/-- Character class given by a list of characters. -/
def rset (l : List Char) : RE := RE.cls (fun c => l.contains c)

/-- Negated character class given by a list of characters. -/
def rnset (l : List Char) : RE := RE.cls (fun c => !l.contains c)

/-- `.` without `DOTALL`: any character except newline. -/
def rdot : RE := RE.cls (fun c => c != '\n')

/-- `.` with `DOTALL`: any character. -/
def rdotAll : RE := RE.cls (fun _ => true)

/-- `[a-zA-Z0-9]`. -/
def ralnum : RE := RE.cls Char.isAlphanum

/-- `[a-f0-9]`. -/
def rhexLower : RE := RE.cls (fun c => c.isDigit || ('a' ≤ c && c ≤ 'f'))

/-- `["\']`. -/
def rquote : RE := rset ['"', '\x27']

/-- The substitution rules of `normalize_content`, one entry per `re.sub`
call in the source, in source order: the pattern encoded for the embedded
engine, paired with the literal replacement text. -/
def normalizeRules : List (RE × String) :=
  [ -- \d{4}-\d{2}-\d{2}[T\s]\d{2}:\d{2}:\d{2}[.\d]*[Z]?
    (rseq [rrep 4 rdigit, rc '-', rrep 2 rdigit, rc '-', rrep 2 rdigit,
      RE.cls (fun c => c == 'T' || isSpaceChar c),
      rrep 2 rdigit, rc ':', rrep 2 rdigit, rc ':', rrep 2 rdigit,
      RE.star true (RE.cls (fun c => c == '.' || c.isDigit)), ropt (rc 'Z')],
     "[TIMESTAMP]"),
    -- \d{1,2}/\d{1,2}/\d{4}
    (rseq [rrange 1 2 rdigit, rc '/', rrange 1 2 rdigit, rc '/', rrep 4 rdigit],
     "[DATE]"),
    -- \d{1,2}-\d{1,2}-\d{4}
    (rseq [rrange 1 2 rdigit, rc '-', rrange 1 2 rdigit, rc '-', rrep 4 rdigit],
     "[DATE]"),
    -- \d{1,2}\.\d{1,2}\.\d{4}
    (rseq [rrange 1 2 rdigit, rc '.', rrange 1 2 rdigit, rc '.', rrep 4 rdigit],
     "[DATE]"),
    -- \b\d{1,2}:\d{2}(:\d{2})?\s*(AM|PM|am|pm)?\b
    (rseq [RE.wordB, rrange 1 2 rdigit, rc ':', rrep 2 rdigit,
      ropt (rseq [rc ':', rrep 2 rdigit]), RE.star true rspace,
      ropt (RE.alt (rlit "AM") (RE.alt (rlit "PM") (RE.alt (rlit "am") (rlit "pm")))),
      RE.wordB],
     "[TIME]"),
    -- \b\d{10,13}\b
    (rseq [RE.wordB, rrange 10 13 rdigit, RE.wordB], "[TIMESTAMP]"),
    -- sessionid=[a-zA-Z0-9]+
    (rseq [rlit "sessionid=", rplus ralnum], "sessionid=[SESSION]"),
    -- token=[a-zA-Z0-9]+
    (rseq [rlit "token=", rplus ralnum], "token=[TOKEN]"),
    -- csrf[_-]?token["\']?\s*[:=]\s*["\']?[a-zA-Z0-9]+
    (rseq [rlit "csrf", ropt (rset ['_', '-']), rlit "token", ropt rquote,
      RE.star true rspace, rset [':', '='], RE.star true rspace, ropt rquote,
      rplus ralnum],
     "csrf_token=[TOKEN]"),
    -- auth[_-]?token["\']?\s*[:=]\s*["\']?[a-zA-Z0-9]+
    (rseq [rlit "auth", ropt (rset ['_', '-']), rlit "token", ropt rquote,
      RE.star true rspace, rset [':', '='], RE.star true rspace, ropt rquote,
      rplus ralnum],
     "auth_token=[TOKEN]"),
    -- [?&]v=\d+   (and the following cache-buster rules, removed outright)
    (rseq [rset ['?', '&'], rlit "v=", rplus rdigit], ""),
    (rseq [rset ['?', '&'], rlit "_=", rplus rdigit], ""),
    (rseq [rset ['?', '&'], rlit "t=", rplus rdigit], ""),
    (rseq [rset ['?', '&'], rlit "cb=", rplus rdigit], ""),
    (rseq [rset ['?', '&'], rlit "cache=", rplus rdigit], ""),
    (rseq [rset ['?', '&'], rlit "timestamp=", rplus rdigit], ""),
    -- id="[a-zA-Z0-9-]{8,}"
    (rseq [rlit "id=\"", ratLeast 8 (RE.cls (fun c => c.isAlphanum || c == '-')),
      rc '"'],
     "id=\"[RANDOM_ID]\""),
    -- [a-f0-9]{8}-[a-f0-9]{4}-[a-f0-9]{4}-[a-f0-9]{4}-[a-f0-9]{12}
    (rseq [rrep 8 rhexLower, rc '-', rrep 4 rhexLower, rc '-', rrep 4 rhexLower,
      rc '-', rrep 4 rhexLower, rc '-', rrep 12 rhexLower],
     "[UUID]"),
    -- data-id="[a-zA-Z0-9-]+"
    (rseq [rlit "data-id=\"", rplus (RE.cls (fun c => c.isAlphanum || c == '-')),
      rc '"'],
     "data-id=\"[DATA_ID]\""),
    -- nonce=["\']?[a-zA-Z0-9+/=]+["\']?
    (rseq [rlit "nonce=", ropt rquote,
      rplus (RE.cls (fun c => c.isAlphanum || c == '+' || c == '/' || c == '=')),
      ropt rquote],
     "nonce=\"[NONCE]\""),
    -- data-nonce=["\']?[a-zA-Z0-9+/=]+["\']?
    (rseq [rlit "data-nonce=", ropt rquote,
      rplus (RE.cls (fun c => c.isAlphanum || c == '+' || c == '/' || c == '=')),
      ropt rquote],
     "data-nonce=\"[NONCE]\""),
    -- Last updated:?\s*[^<\n]+   (IGNORECASE)
    (rseq [rlitCI "Last updated", ropt (rc ':'), RE.star true rspace,
      rplus (rnset ['<', '\n'])],
     "Last updated: [TIME]"),
    -- Generated at:?\s*[^<\n]+   (IGNORECASE)
    (rseq [rlitCI "Generated at", ropt (rc ':'), RE.star true rspace,
      rplus (rnset ['<', '\n'])],
     "Generated at: [TIME]"),
    -- Current time:?\s*[^<\n]+   (IGNORECASE)
    (rseq [rlitCI "Current time", ropt (rc ':'), RE.star true rspace,
      rplus (rnset ['<', '\n'])],
     "Current time: [TIME]"),
    -- \$[\d,]+\.?\d*
    (rseq [rc '$', rplus (RE.cls (fun c => c.isDigit || c == ',')), ropt (rc '.'),
      RE.star true rdigit],
     "$[AMOUNT]"),
    -- RM\s*[\d,]+\.?\d*
    (rseq [rlit "RM", RE.star true rspace, rplus (RE.cls (fun c => c.isDigit || c == ',')),
      ropt (rc '.'), RE.star true rdigit],
     "RM[AMOUNT]"),
    -- the euro rule: the source file holds the literal bytes U+00E2 U+201A U+00AC
    (rseq [rlit "â‚¬", rplus (RE.cls (fun c => c.isDigit || c == ',')),
      ropt (rc '.'), RE.star true rdigit],
     "â‚¬[AMOUNT]"),
    -- the pound rule: the source file holds the literal bytes U+00C2 U+00A3
    (rseq [rlit "Â£", rplus (RE.cls (fun c => c.isDigit || c == ',')),
      ropt (rc '.'), RE.star true rdigit],
     "Â£[AMOUNT]"),
    -- \b\d+\s*(players?|users?|online)\b   (IGNORECASE)
    (rseq [RE.wordB, rplus rdigit, RE.star true rspace,
      RE.alt (rseq [rlitCI "player", ropt (rci 's')])
        (RE.alt (rseq [rlitCI "user", ropt (rci 's')]) (rlitCI "online")),
      RE.wordB],
     "[COUNT] players"),
    -- \b(players?|users?|online):\s*\d+   (IGNORECASE)
    (rseq [RE.wordB,
      RE.alt (rseq [rlitCI "player", ropt (rci 's')])
        (RE.alt (rseq [rlitCI "user", ropt (rci 's')]) (rlitCI "online")),
      rc ':', RE.star true rspace, rplus rdigit],
     "players: [COUNT]"),
    -- \b\d+\s*(views?|clicks?|visits?)\b   (IGNORECASE)
    (rseq [RE.wordB, rplus rdigit, RE.star true rspace,
      RE.alt (rseq [rlitCI "view", ropt (rci 's')])
        (RE.alt (rseq [rlitCI "click", ropt (rci 's')])
          (rseq [rlitCI "visit", ropt (rci 's')])),
      RE.wordB],
     "[COUNT] views"),
    -- \b\d{1,2}[hms]\s*\d{0,2}[ms]?\s*\d{0,2}s?\b
    (rseq [RE.wordB, rrange 1 2 rdigit, rset ['h', 'm', 's'], RE.star true rspace,
      rupTo 2 rdigit, ropt (rset ['m', 's']), RE.star true rspace, rupTo 2 rdigit,
      ropt (rc 's'), RE.wordB],
     "[COUNTDOWN]"),
    -- Date\.now\(\)
    (rlit "Date.now()", "Date.now()"),
    -- Math\.random\(\)
    (rlit "Math.random()", "Math.random()"),
    -- [?&]utm_[^&=]*=[^&]*
    (rseq [rset ['?', '&'], rlit "utm_", RE.star true (rnset ['&', '=']), rc '=',
      RE.star true (rnset ['&'])],
     ""),
    -- [?&]ga_[^&=]*=[^&]*
    (rseq [rset ['?', '&'], rlit "ga_", RE.star true (rnset ['&', '=']), rc '=',
      RE.star true (rnset ['&'])],
     ""),
    -- [?&]fbclid=[^&]*
    (rseq [rset ['?', '&'], rlit "fbclid=", RE.star true (rnset ['&'])], ""),
    -- \b\d{4,}\b
    (rseq [RE.wordB, ratLeast 4 rdigit, RE.wordB], "[NUMBER]"),
    -- data-[a-zA-Z-]+=['"][^'"]*['"]
    (rseq [rlit "data-", rplus (RE.cls (fun c => c.isAlpha || c == '-')), rc '=',
      rquote, RE.star true (rnset ['\x27', '"']), rquote],
     "data-attr=\"[DATA]\""),
    -- class=['"][^'"]*['"]
    (rseq [rlit "class=", rquote, RE.star true (rnset ['\x27', '"']), rquote],
     "class=\"[CLASS]\""),
    -- style=['"][^'"]*['"]
    (rseq [rlit "style=", rquote, RE.star true (rnset ['\x27', '"']), rquote],
     "style=\"[STYLE]\""),
    -- <script[^>]*>.*?</script>   (DOTALL, lazy body)
    (rseq [rlit "<script", RE.star true (rnset ['>']), rc '>',
      RE.star false rdotAll, rlit "</script>"],
     "<script>[SCRIPT]</script>"),
    -- \{[^{}]*\}
    (rseq [rc '\x7b', RE.star true (rnset ['\x7b', '\x7d']), rc '\x7d'],
     "\x7b[JSON]\x7d"),
    -- \?[^"\s<>]*
    (rseq [rc '?',
      RE.star true (RE.cls (fun c => !(c == '"' || isSpaceChar c || c == '<' || c == '>')))],
     ""),
    -- #[^"\s<>]*
    (rseq [rc '#',
      RE.star true (RE.cls (fun c => !(c == '"' || isSpaceChar c || c == '<' || c == '>')))],
     ""),
    -- \s+
    (rplus rspace, " ") ]

/-- Python `str.strip()` on the ASCII whitespace set. -/
def pythonStrip (s : String) : String :=
  String.mk (((s.data.dropWhile isSpaceChar).reverse.dropWhile isSpaceChar).reverse)

/-- `WebsiteTracker.normalize_content`: apply every substitution rule in
source order, then collapse has already been done by the final rule and the
result is stripped. -/
def normalize_content (content : String) : String :=
  pythonStrip (normalizeRules.foldl (fun acc r => reSub r.1 r.2 acc) content)

/-! ## MD5

The source fingerprints content with `hashlib.md5(text.encode('utf-8'))
.hexdigest()`.  We embed MD5 over `Nat` arithmetic modulo `2 ^ 32`. -/

/-- Truncate to 32 bits. -/
def m32 (x : Nat) : Nat := x % 4294967296

/-- Bitwise complement on 32 bits (for `x < 2 ^ 32`). -/
def mnot (x : Nat) : Nat := 4294967295 - x

/-- Rotate a 32-bit word left by `n` bits. -/
def rotl (x n : Nat) : Nat := m32 (x <<< n) ||| (x >>> (32 - n))

/-- UTF-8 encoding of one character, as byte values. -/
def utf8Bytes (c : Char) : List Nat :=
  let n := c.toNat
  if n < 128 then [n]
  else if n < 2048 then [192 ||| (n >>> 6), 128 ||| (n &&& 63)]
  else if n < 65536 then
    [224 ||| (n >>> 12), 128 ||| ((n >>> 6) &&& 63), 128 ||| (n &&& 63)]
  else
    [240 ||| (n >>> 18), 128 ||| ((n >>> 12) &&& 63), 128 ||| ((n >>> 6) &&& 63),
     128 ||| (n &&& 63)]

/-- UTF-8 encoding of a string (`str.encode('utf-8')`). -/
def utf8Encode (s : String) : List Nat := s.data.flatMap utf8Bytes

/-- A number as `k` little-endian bytes. -/
def leBytes (k n : Nat) : List Nat :=
  match k with
  | 0 => []
  | k + 1 => (n % 256) :: leBytes k (n / 256)

/-- MD5 padding: a `0x80` byte, zero bytes to 56 mod 64, then the bit length
as eight little-endian bytes. -/
def md5pad (msg : List Nat) : List Nat :=
  let padZeros := (120 - (msg.length + 1) % 64) % 64
  msg ++ 128 :: List.replicate padZeros 0 ++ leBytes 8 (8 * msg.length)

/-- Interpret four consecutive bytes as a little-endian 32-bit word, for the
sixteen words of one block. -/
def toWords : List Nat → List Nat
  | b0 :: b1 :: b2 :: b3 :: rest =>
    (b0 + 256 * b1 + 65536 * b2 + 16777216 * b3) :: toWords rest
  | _ => []

/-- Split the padded message into 64-byte blocks (the fuel is the length,
which suffices since every step consumes 64 bytes). -/
def toBlocks : Nat → List Nat → List (List Nat)
  | 0, _ => []
  | _ + 1, [] => []
  | fuel + 1, l => (toWords (l.take 64)) :: toBlocks fuel (l.drop 64)

/-- The 64 MD5 sine-derived constants `K[i]`. -/
def md5K : List Nat :=
  [3614090360, 3905402710, 606105819, 3250441966, 4118548399, 1200080426,
   2821735955, 4249261313, 1770035416, 2336552879, 4294925233, 2304563134,
   1804603682, 4254626195, 2792965006, 1236535329, 4129170786, 3225465664,
   643717713, 3921069994, 3593408605, 38016083, 3634488961, 3889429448,
   568446438, 3275163606, 4107603335, 1163531501, 2850285829, 4243563512,
   1735328473, 2368359562, 4294588738, 2272392833, 1839030562, 4259657740,
   2763975236, 1272893353, 4139469664, 3200236656, 681279174, 3936430074,
   3572445317, 76029189, 3654602809, 3873151461, 530742520, 3299628645,
   4096336452, 1126891415, 2878612391, 4237533241, 1700485571, 2399980690,
   4293915773, 2240044497, 1873313359, 4264355552, 2734768916, 1309151649,
   4149444226, 3174756917, 718787259, 3951481745]

/-- The per-round left-rotation amounts `s[i]`. -/
def md5S : List Nat :=
  [7, 12, 17, 22, 7, 12, 17, 22, 7, 12, 17, 22, 7, 12, 17, 22,
   5, 9, 14, 20, 5, 9, 14, 20, 5, 9, 14, 20, 5, 9, 14, 20,
   4, 11, 16, 23, 4, 11, 16, 23, 4, 11, 16, 23, 4, 11, 16, 23,
   6, 10, 15, 21, 6, 10, 15, 21, 6, 10, 15, 21, 6, 10, 15, 21]

/-- The round function `F`, by round index. -/
def md5F (i b c d : Nat) : Nat :=
  if i < 16 then (b &&& c) ||| (mnot b &&& d)
  else if i < 32 then (d &&& b) ||| (mnot d &&& c)
  else if i < 48 then b ^^^ c ^^^ d
  else c ^^^ (b ||| mnot d)

/-- The message-word index `g`, by round index. -/
def md5g (i : Nat) : Nat :=
  if i < 16 then i
  else if i < 32 then (5 * i + 1) % 16
  else if i < 48 then (3 * i + 5) % 16
  else (7 * i) % 16

/-- One MD5 block: run the 64 rounds and add the result into the state. -/
def md5Block (h : Nat × Nat × Nat × Nat) (M : List Nat) : Nat × Nat × Nat × Nat :=
  let (a0, b0, c0, d0) := h
  let st := (List.range 64).foldl
    (fun st i =>
      let (a, b, c, d) := st
      let f := m32 (md5F i b c d + a + md5K.getD i 0 + M.getD (md5g i) 0)
      (d, m32 (b + rotl f (md5S.getD i 0)), b, c))
    (a0, b0, c0, d0)
  (m32 (a0 + st.1), m32 (b0 + st.2.1), m32 (c0 + st.2.2.1), m32 (d0 + st.2.2.2))

/-- Hexadecimal digit (lowercase). -/
def hexDigit (n : Nat) : Char :=
  if n < 10 then Char.ofNat (48 + n) else Char.ofNat (87 + n)

/-- A byte as two lowercase hex characters. -/
def byteHex (n : Nat) : List Char := [hexDigit (n / 16), hexDigit (n % 16)]

/-- `hashlib.md5(s.encode('utf-8')).hexdigest()`. -/
def md5hex (s : String) : String :=
  let msg := md5pad (utf8Encode s)
  let blocks := toBlocks (msg.length + 1) msg
  let h := blocks.foldl md5Block (1732584193, 4023233417, 2562383102, 271733878)
  String.mk ((leBytes 4 h.1 ++ leBytes 4 h.2.1 ++ leBytes 4 h.2.2.1 ++
    leBytes 4 h.2.2.2).flatMap byteHex)

/-! ## Fingerprints -/

/-- `calculate_content_hash`: MD5 of the normalized content. -/
def calculate_content_hash (content : String) : String :=
  md5hex (normalize_content content)

/-- The meta triple returned by `extract_meta_info`. -/
structure MetaInfo where
  title : String
  description : String
  keywords : String
deriving DecidableEq, Repr

/-- `calculate_meta_hash`: MD5 of the fields joined with the separator
character between them (`f"{title}|{description}|{keywords}"`). -/
def calculate_meta_hash (meta_info : MetaInfo) : String :=
  md5hex (meta_info.title ++ "|" ++ meta_info.description ++ "|" ++ meta_info.keywords)

/-- Python slicing `s[:n]` (by characters, stopping at the end of the
string). -/
def pyTake (n : Nat) (s : String) : String := String.mk (s.data.take n)

/-! ## Change classifier

`check_website_changes` mixes pure fingerprinting with three collaborators
that this development cannot embed (they run `requests` and BeautifulSoup):
the fetch result is passed in as an `Option String`, meta extraction
(`extract_meta_info`), snapshot creation (`create_content_snapshot`) and
snapshot comparison (`compare_content_snapshots`) are parameters, snapshots
themselves an abstract type.  `snap_nonempty` stands for Python truthiness
of a snapshot dict (`if before_snapshot:`).  `now` stands for
`datetime.now().isoformat()`. -/

/-- One tracking record, the value stored per URL in `website_data`. -/
structure Record (Snap : Type) where
  content_hash : String
  meta_hash : String
  meta_info : MetaInfo
  last_checked : String
  last_changed : String
  content_length : Nat
  check_count : Nat
  last_content : String
  last_snapshot : Snap
deriving DecidableEq, Repr

/-- The tracking store: the `website_data` dict as a partial map. -/
def Store (Snap : Type) : Type := String → Option (Record Snap)

/-- The dict returned by `check_website_changes`; the snapshot pair is only
present when a change was detected. -/
structure ChangeResult (Snap : Type) where
  changed : Bool
  meta_changed : Bool
  content_changed : Bool
  change_type : String
  details : String
  before_snapshot : Option Snap
  after_snapshot : Option Snap
deriving DecidableEq, Repr

/-- `_get_meta_change_details`: before/after listing of the meta fields that
differ (the arrow in the source file is the byte sequence U+00E2 U+2020
U+2019). -/
def _get_meta_change_details (old_meta new_meta : MetaInfo) : String :=
  let arrow : String := "â†’"
  let changes :=
    (if old_meta.title ≠ new_meta.title then
      ["Title: \x27" ++ old_meta.title.take 50 ++ "...\x27 " ++ arrow ++ " \x27" ++
        new_meta.title.take 50 ++ "...\x27"]
     else []) ++
    (if old_meta.description ≠ new_meta.description then
      ["Description: \x27" ++ old_meta.description.take 100 ++ "...\x27 " ++ arrow ++
        " \x27" ++ new_meta.description.take 100 ++ "...\x27"]
     else []) ++
    (if old_meta.keywords ≠ new_meta.keywords then
      ["Keywords: \x27" ++ old_meta.keywords.take 50 ++ "...\x27 " ++ arrow ++ " \x27" ++
        new_meta.keywords.take 50 ++ "...\x27"]
     else [])
  if changes ≠ [] then String.intercalate "; " changes else "Meta information changed"

/-- The camera marker prefixed to snapshot diffs in `details` (the source
file holds the byte sequence U+00F0 U+0178 U+201C U+00B8). -/
def snapshotDetails (diff : String) : String :=
  "\n\nðŸ“¸ Content Changes:\n" ++ diff

/-- `check_website_changes url`: classify one fetch of `url` against the
store and return the change report together with the updated store.
`em` is `extract_meta_info`, `create_snapshot` is
`create_content_snapshot content url kind`, `compare_snapshots` is
`compare_content_snapshots`, `fetched` the result of
`get_website_content` (`none` on fetch failure). -/
def check_website_changes {Snap : Type}
    (em : String → MetaInfo)
    (create_snapshot : String → String → String → Snap)
    (compare_snapshots : Snap → Snap → String)
    (snap_nonempty : Snap → Bool)
    (now : String)
    (store : Store Snap) (url : String) (fetched : Option String) :
    ChangeResult Snap × Store Snap :=
  match fetched with
  | none =>
    (⟨false, false, false, "error", "Could not fetch content", none, none⟩, store)
  | some content =>
    let meta_info := em content
    let current_content_hash := calculate_content_hash content
    let current_meta_hash := calculate_meta_hash meta_info
    match store url with
    | none =>
      let baseline_snapshot := create_snapshot content url "baseline"
      let rec0 : Record Snap :=
        ⟨current_content_hash, current_meta_hash, meta_info, now, "Never",
          content.length, 1, pyTake 5000 content, baseline_snapshot⟩
      (⟨false, false, false, "first_time", "Baseline established", none, none⟩,
       fun u => if u = url then some rec0 else store u)
    | some stored =>
      let stored_content_hash := stored.content_hash
      let stored_meta_hash := stored.meta_hash
      let stored_meta_info := stored.meta_info
      let r1 : Record Snap :=
        { stored with
          last_checked := now
          check_count := stored.check_count + 1
          content_length := content.length }
      let meta_changed := current_meta_hash != stored_meta_hash
      let content_changed := current_content_hash != stored_content_hash
      if meta_changed || content_changed then
        let current_snapshot := create_snapshot content url "after"
        let before_snapshot := r1.last_snapshot
        let r2 : Record Snap :=
          { r1 with
            content_hash := current_content_hash
            meta_hash := current_meta_hash
            meta_info := meta_info
            last_changed := now
            last_content := pyTake 5000 content
            last_snapshot := current_snapshot }
        let td : String × String :=
          if meta_changed && content_changed then
            ("both_meta_and_content",
             "Both meta information and page content changed" ++
               (if snap_nonempty before_snapshot then
                 snapshotDetails (compare_snapshots before_snapshot current_snapshot)
                else ""))
          else if meta_changed then
            ("meta_only", _get_meta_change_details stored_meta_info meta_info)
          else
            ("content_only",
             "Page content changed (meta unchanged)" ++
               (if snap_nonempty before_snapshot then
                 snapshotDetails (compare_snapshots before_snapshot current_snapshot)
                else ""))
        (⟨true, meta_changed, content_changed, td.1, td.2,
          some before_snapshot, some current_snapshot⟩,
         fun u => if u = url then some r2 else store u)
      else
        (⟨false, false, false, "no_change",
          "No changes detected (check #" ++ toString r1.check_count ++ ")", none, none⟩,
         fun u => if u = url then some r1 else store u)

/-- Iterate `check_website_changes` on one URL over a list of successful
passes, each given as a `(content, now)` pair, threading the store. -/
def run_checks {Snap : Type}
    (em : String → MetaInfo)
    (create_snapshot : String → String → String → Snap)
    (compare_snapshots : Snap → Snap → String)
    (snap_nonempty : Snap → Bool)
    (url : String) :
    Store Snap → List (String × String) → Store Snap
  | store, [] => store
  | store, (content, now) :: rest =>
    run_checks em create_snapshot compare_snapshots snap_nonempty url
      (check_website_changes em create_snapshot compare_snapshots snap_nonempty now
        store url (some content)).2 rest

/-! ## Notification grouping -/

/-- One change entry passed to `_group_changes_by_website`; the function
only reads `change['url']` and moves the whole entry, so the remaining
payload is kept as one opaque string field. -/
structure ChangeEntry where
  url : String
  info : String
deriving DecidableEq, Repr

/-- One configured group: `{'name': ..., 'urls': [...]}`. -/
structure GroupData where
  name : String
  urls : List String
deriving DecidableEq, Repr

/-- One output bucket: `{'name': ..., 'changes': [...]}`. -/
structure GroupBucket where
  name : String
  changes : List ChangeEntry
deriving DecidableEq, Repr

/-- The loop over `self.url_groups.items()`: the first group whose URL list
contains the URL wins (`break`); `none` when no group matches. -/
def findGroup (url_groups : List (String × GroupData)) (url : String) :
    Option (String × String) :=
  match url_groups.find? (fun g => g.2.urls.contains url) with
  | some g => some (g.1, g.2.name)
  | none => none

/-- Where a change lands: the matching group unless the loop found none or
the found key is falsy (`if not group_key:` — the empty string is falsy in
Python), in which case the fixed ungrouped bucket. -/
def bucketFor (url_groups : List (String × GroupData)) (url : String) :
    String × String :=
  match findGroup url_groups url with
  | some (k, n) => if k = "" then ("ungrouped", "Ungrouped Sites") else (k, n)
  | none => ("ungrouped", "Ungrouped Sites")

/-- Dict insertion: append the change to the existing bucket of this key, or
add a fresh bucket at the end (`grouped[group_key] = ...` on a new key keeps
dict insertion order). -/
def addToBucket : List (String × GroupBucket) → String → String → ChangeEntry →
    List (String × GroupBucket)
  | [], key, name, c => [(key, ⟨name, [c]⟩)]
  | e :: rest, key, name, c =>
    if e.1 = key then (e.1, ⟨e.2.name, e.2.changes ++ [c]⟩) :: rest
    else e :: addToBucket rest key name c

/-- `_group_changes_by_website`: fold the changes into keyed buckets. -/
def _group_changes_by_website (url_groups : List (String × GroupData))
    (changes : List ChangeEntry) : List (String × GroupBucket) :=
  changes.foldl
    (fun acc c =>
      addToBucket acc (bucketFor url_groups c.url).1 (bucketFor url_groups c.url).2 c)
    []

/-- The concatenation of all per-bucket change lists. -/
def bucketUnion (grouped : List (String × GroupBucket)) : List ChangeEntry :=
  grouped.flatMap (fun e => e.2.changes)

/-- Record used by the C5 witness: its stored content hash is the current
one and its stored meta hash differs from the current one. -/
def c5wr : Record Unit :=
  ⟨calculate_content_hash "a", "x", ⟨"t", "", ""⟩, "T0", "Never", 1, 3, "a", ()⟩

/-- Meta extractor of the C5 counterexample: the two fetched contents carry
different titles. -/
def c5em : String → MetaInfo :=
  fun c => if c = "a b" then ⟨"t1", "", ""⟩ else ⟨"t2", "", ""⟩

/-- Store after the first pass of the C5 counterexample: a baseline for
`u` fetched as `a b` (snapshots are modelled by their kind string). -/
def c5store1 : Store String :=
  (check_website_changes c5em (fun _ _ k => k) (fun _ _ => "") (fun _ => true)
    "T1" (fun _ => none) "u" (some "a b")).2

/-- Second pass of the C5 counterexample: the content `a  b` normalizes to
the same text as `a b` (equal content digest) but carries a new title
(different meta digest). -/
def c5check2 : ChangeResult String × Store String :=
  check_website_changes c5em (fun _ _ k => k) (fun _ _ => "") (fun _ => true)
    "T2" c5store1 "u" (some "a  b")

/-- Groups of the C9 counterexample: a single group whose key is the empty
string and whose URL list contains the changed URL. -/
def c9groups : List (String × GroupData) := [("", ⟨"G", ["u"]⟩)]

/-- Changes of the C9 counterexample. -/
def c9changes : List ChangeEntry := [⟨"u", "i"⟩]

/-- The placeholder forms, each in its surrounding context, that the rules
of `normalize_content` insert and leave in their final output.  (The
`data-id="[DATA_ID]"` and `data-nonce="[NONCE]"` forms are not included:
within one pass the later generic `data-` attribute rule rewrites them to
`data-attr="[DATA]"`, which is.) -/
def placeholderForms : List String :=
  ["[TIMESTAMP] [DATE] [TIME]", "[UUID] [NUMBER] [COUNTDOWN]",
   "[COUNT] players", "players: [COUNT]", "[COUNT] views",
   "sessionid=[SESSION]", "token=[TOKEN]", "csrf_token=[TOKEN]",
   "auth_token=[TOKEN]", "id=\"[RANDOM_ID]\"", "data-attr=\"[DATA]\"",
   "class=\"[CLASS]\"", "style=\"[STYLE]\"", "nonce=\"[NONCE]\"",
   "$[AMOUNT]", "RM[AMOUNT]", "Date.now()", "Math.random()",
   "\x7b[JSON]\x7d", "<script>[SCRIPT]</script>",
   "Last updated: [TIME]", "Generated at: [TIME]", "Current time: [TIME]"]

/-! ## Theorems -/

set_option maxRecDepth 100000
set_option maxHeartbeats 4000000

/-- C1 (counterexample): the claimed noise invariance fails for the
whitespace family.  The two texts below are identical except that the
whitespace run between `x` and `y` is a newline in one and a space in the
other, yet their content hashes differ: the newline truncates the
line-bounded `Last updated:` substitution on the first text, and the final
whitespace collapse then erases the trace of the newline, leaving distinct
normalized forms `Last updated: [TIME] y` and `Last updated: [TIME]`. -/
theorem calculate_content_hash_not_whitespace_invariant :
    (∃ p a b s : String,
      "Last updated: x\ny" = p ++ a ++ s ∧ "Last updated: x y" = p ++ b ++ s ∧
      a ≠ "" ∧ b ≠ "" ∧ a.data.all isSpaceChar ∧ b.data.all isSpaceChar) ∧
    calculate_content_hash "Last updated: x\ny" ≠
      calculate_content_hash "Last updated: x y" :=
  ⟨⟨"Last updated: x", "\n", " ", "y", by decide, by decide, by decide, by decide,
    by decide, by decide⟩, by decide⟩

/-- C1 (amended): the content hash is invariant under the spec's example
timestamp substitution, and in general two texts with equal normalized
forms always hash equal; full same-family substitution invariance does not
hold (see the counterexample). -/
theorem calculate_content_hash_noise_invariance :
    calculate_content_hash "<div>Last updated: 2025-09-16T08:30:26Z</div>" =
      calculate_content_hash "<div>Last updated: 2025-09-16T09:11:19Z</div>" ∧
    ∀ A B : String, normalize_content A = normalize_content B →
      calculate_content_hash A = calculate_content_hash B :=
  ⟨congrArg md5hex (by decide), fun _ _ h => congrArg md5hex h⟩

/-- C1 (witness): the general part of the amendment applied at the spec's
example pair. -/
theorem calculate_content_hash_noise_invariance_witness :
    normalize_content "<div>Last updated: 2025-09-16T08:30:26Z</div>" =
      normalize_content "<div>Last updated: 2025-09-16T09:11:19Z</div>" ∧
    calculate_content_hash "<div>Last updated: 2025-09-16T08:30:26Z</div>" =
      calculate_content_hash "<div>Last updated: 2025-09-16T09:11:19Z</div>" :=
  ⟨by decide,
   calculate_content_hash_noise_invariance.2
     "<div>Last updated: 2025-09-16T08:30:26Z</div>"
     "<div>Last updated: 2025-09-16T09:11:19Z</div>" (by decide)⟩

/-- C2 (counterexample): normalization is not idempotent.  On
`Last updated: x\ny` the first pass stops the `Last updated:` substitution
at the newline and then collapses the newline to a space, producing
`Last updated: [TIME] y`; the second pass re-matches the now
newline-free phrase and shortens it to `Last updated: [TIME]`. -/
theorem normalize_content_not_idempotent :
    normalize_content (normalize_content "Last updated: x\ny") ≠
      normalize_content "Last updated: x\ny" := by decide

/-- C2 (amended): full idempotence fails, and not only through the
newline-truncated time phrases of the counterexample — a first pass can
also splice new match sites together (removing the cache buster in
`tok&v=1en=abc` yields `token=abc`, which a second pass rewrites to
`token=[TOKEN]`), so no simple exception clause recovers the universal
statement.  What does hold, and is proved here instance by instance: the
placeholder vocabulary the rules insert is itself stable — normalization is
the identity on every form of `placeholderForms` — and a second pass
reproduces the first on the spec's example input and on the representative
inputs below. -/
theorem normalize_content_idempotent_instances :
    (∀ s ∈ placeholderForms, normalize_content s = s) ∧
    normalize_content (normalize_content "<div>Last updated: 2025-09-16T08:30:26Z</div>") =
      normalize_content "<div>Last updated: 2025-09-16T08:30:26Z</div>" ∧
    normalize_content (normalize_content "<h1>Welcome</h1>") =
      normalize_content "<h1>Welcome</h1>" ∧
    normalize_content (normalize_content "sessionid=abc123 token=z9") =
      normalize_content "sessionid=abc123 token=z9" ∧
    normalize_content (normalize_content "price $1,234.50 a  b ?v=12") =
      normalize_content "price $1,234.50 a  b ?v=12" :=
  ⟨by decide, by decide, by decide, by decide, by decide⟩

/-- C2 (witness): the stability part of the amendment applied at a concrete
member of `placeholderForms`. -/
theorem normalize_content_idempotent_instances_witness :
    ("token=[TOKEN]" : String) ∈ placeholderForms ∧
    normalize_content "token=[TOKEN]" = "token=[TOKEN]" :=
  ⟨by decide,
   normalize_content_idempotent_instances.1 "token=[TOKEN]" (by decide)⟩

/-- C8 (counterexample): a non-empty input can normalize to the empty
string — a single space survives every substitution rule, the whitespace
collapse keeps it, and the final strip removes it. -/
theorem normalize_content_empty_on_nonempty_input :
    (" " : String) ≠ "" ∧ normalize_content " " = "" := ⟨by decide, by decide⟩

/-- C8 (amended): the empty input normalizes to the empty output, but a
non-empty input made only of removable noise (a lone whitespace run, or a
bare cache-busting query string) also normalizes to the empty string, while
ordinary content is kept. -/
theorem normalize_content_empty_behaviour :
    normalize_content "" = "" ∧ normalize_content " " = "" ∧
    normalize_content "?v=1" = "" ∧ normalize_content "a" = "a" :=
  ⟨by decide, by decide, by decide, by decide⟩

/-- C10: the meta digest joins title, description and keywords with the
separator `|`, which may itself occur inside a field: the two distinct
triples below both serialize to `a|b|c|` and therefore collide, so a meta
change between them is undetectable. -/
theorem calculate_meta_hash_separator_collision :
    (⟨"a|b", "c", ""⟩ : MetaInfo) ≠ ⟨"a", "b|c", ""⟩ ∧
    calculate_meta_hash ⟨"a|b", "c", ""⟩ = calculate_meta_hash ⟨"a", "b|c", ""⟩ :=
  ⟨by decide, congrArg md5hex (by decide)⟩

/-- C6: on a fetch failure (`get_website_content` returned `None`) the check
reports an error with `changed = false` and returns the store untouched: no
record is created for an unknown URL and no field of any record changes. -/
theorem check_error_leaves_store_unchanged {Snap : Type}
    (em : String → MetaInfo) (cs : String → String → String → Snap)
    (cmp : Snap → Snap → String) (sne : Snap → Bool)
    (now : String) (store : Store Snap) (url : String) :
    check_website_changes em cs cmp sne now store url none =
      (⟨false, false, false, "error", "Could not fetch content", none, none⟩, store) :=
  rfl

/-- C3: a successful fetch of a URL with no record yields the `first_time`
report with every changed flag false, creates exactly the baseline record
under that URL, and leaves every other key of the store unchanged. -/
theorem check_first_time_creates_baseline {Snap : Type}
    (em : String → MetaInfo) (cs : String → String → String → Snap)
    (cmp : Snap → Snap → String) (sne : Snap → Bool)
    (now : String) (store : Store Snap) (url content : String)
    (h : store url = none) :
    (check_website_changes em cs cmp sne now store url (some content)).1 =
      ⟨false, false, false, "first_time", "Baseline established", none, none⟩ ∧
    (check_website_changes em cs cmp sne now store url (some content)).2 url =
      some ⟨calculate_content_hash content, calculate_meta_hash (em content),
        em content, now, "Never", content.length, 1, pyTake 5000 content,
        cs content url "baseline"⟩ ∧
    ∀ u, u ≠ url →
      (check_website_changes em cs cmp sne now store url (some content)).2 u = store u := by
  refine ⟨?_, ?_, ?_⟩
  · simp [check_website_changes, h]
  · simp [check_website_changes, h]
  · intro u hu
    simp [check_website_changes, h, hu]

/-- C3 (witness): the theorem applied to an empty store. -/
theorem check_first_time_creates_baseline_witness :
    ((fun _ => none : Store Unit) "u" = none) ∧
    (check_website_changes (fun _ => (⟨"", "", ""⟩ : MetaInfo)) (fun _ _ _ => ())
        (fun _ _ => "") (fun _ => false) "T" (fun _ => none) "u" (some "a")).1 =
      ⟨false, false, false, "first_time", "Baseline established", none, none⟩ :=
  ⟨rfl,
   (check_first_time_creates_baseline (fun _ => ⟨"", "", ""⟩) (fun _ _ _ => ())
     (fun _ _ => "") (fun _ => false) "T" (fun _ => none) "u" "a" rfl).1⟩

/-- C7: every successful check of an already-tracked URL increments the
record's `check_count` by exactly one, in every branch of the classifier. -/
theorem check_count_increments {Snap : Type}
    (em : String → MetaInfo) (cs : String → String → String → Snap)
    (cmp : Snap → Snap → String) (sne : Snap → Bool)
    (now : String) (store : Store Snap) (url content : String)
    (r : Record Snap) (h : store url = some r) :
    ((check_website_changes em cs cmp sne now store url (some content)).2 url).map
      Record.check_count = some (r.check_count + 1) := by
  simp only [check_website_changes, h]
  split
  · simp
  · simp

/-- C7 (witness): the theorem applied to a concrete one-record store. -/
theorem check_count_increments_witness :
    ((fun u => if u = "u" then
        some (⟨"h", "m", ⟨"", "", ""⟩, "T0", "Never", 1, 5, "a", ()⟩ : Record Unit)
      else none : Store Unit) "u" =
      some ⟨"h", "m", ⟨"", "", ""⟩, "T0", "Never", 1, 5, "a", ()⟩) ∧
    (((check_website_changes (fun _ => (⟨"", "", ""⟩ : MetaInfo)) (fun _ _ _ => ())
        (fun _ _ => "") (fun _ => false) "T1"
        (fun u => if u = "u" then
          some (⟨"h", "m", ⟨"", "", ""⟩, "T0", "Never", 1, 5, "a", ()⟩ : Record Unit)
        else none) "u" (some "a")).2 "u").map Record.check_count = some 6) :=
  ⟨rfl,
   check_count_increments (fun _ => ⟨"", "", ""⟩) (fun _ _ _ => ()) (fun _ _ => "")
     (fun _ => false) "T1" _ "u" "a" _ rfl⟩

/-- Helper: the exact value of one no-change pass, when both current digests
equal the stored ones. -/
theorem check_no_change_step {Snap : Type}
    (em : String → MetaInfo) (cs : String → String → String → Snap)
    (cmp : Snap → Snap → String) (sne : Snap → Bool)
    (now : String) (store : Store Snap) (url content : String)
    (r : Record Snap) (h : store url = some r)
    (hc : calculate_content_hash content = r.content_hash)
    (hm : calculate_meta_hash (em content) = r.meta_hash) :
    check_website_changes em cs cmp sne now store url (some content) =
      (⟨false, false, false, "no_change",
        "No changes detected (check #" ++ toString (r.check_count + 1) ++ ")",
        none, none⟩,
       fun u => if u = url then
         some { r with
           last_checked := now
           check_count := r.check_count + 1
           content_length := content.length }
       else store u) := by
  simp [check_website_changes, h, hc, hm]

/-- Helper: over any sequence of passes whose contents all hash to the
stored digests, the record keeps its digests and its `last_changed` value. -/
theorem run_checks_no_change {Snap : Type}
    (em : String → MetaInfo) (cs : String → String → String → Snap)
    (cmp : Snap → Snap → String) (sne : Snap → Bool) (url : String) :
    ∀ (steps : List (String × String)) (store : Store Snap) (r : Record Snap),
      store url = some r →
      (∀ p ∈ steps, calculate_content_hash p.1 = r.content_hash ∧
        calculate_meta_hash (em p.1) = r.meta_hash) →
      ∃ r', run_checks em cs cmp sne url store steps url = some r' ∧
        r'.content_hash = r.content_hash ∧ r'.meta_hash = r.meta_hash ∧
        r'.last_changed = r.last_changed := by
  intro steps
  induction steps with
  | nil => exact fun store r h _ => ⟨r, h, rfl, rfl, rfl⟩
  | cons p rest ih =>
    intro store r h hall
    obtain ⟨content, now⟩ := p
    obtain ⟨hc, hm⟩ := hall (content, now) (List.mem_cons_self _ _)
    rw [run_checks,
      check_no_change_step em cs cmp sne now store url content r h hc hm]
    obtain ⟨r', h1, h2, h3, h4⟩ := ih
      (fun u => if u = url then
        some { r with
          last_checked := now
          check_count := r.check_count + 1
          content_length := content.length }
      else store u)
      { r with
        last_checked := now
        check_count := r.check_count + 1
        content_length := content.length }
      (by simp)
      (fun q hq => hall q (List.mem_cons_of_mem _ hq))
    exact ⟨r', h1, h2, h3, h4⟩

/-- C4: when both current digests equal the stored ones, the check reports
`no_change` with `changed = false`, rewrites only `last_checked`,
`check_count` and `content_length` of the URL's record (hashes, meta info,
snapshot, stored content and `last_changed` are untouched) and leaves every
other record unchanged; consequently over any number of consecutive
no-change passes `last_changed` keeps its value — in particular it stays
the `Never` sentinel it received at the baseline. -/
theorem check_no_change_frame {Snap : Type}
    (em : String → MetaInfo) (cs : String → String → String → Snap)
    (cmp : Snap → Snap → String) (sne : Snap → Bool)
    (now : String) (store : Store Snap) (url content : String)
    (r : Record Snap) (h : store url = some r)
    (hc : calculate_content_hash content = r.content_hash)
    (hm : calculate_meta_hash (em content) = r.meta_hash) :
    (check_website_changes em cs cmp sne now store url (some content)).1 =
      ⟨false, false, false, "no_change",
        "No changes detected (check #" ++ toString (r.check_count + 1) ++ ")",
        none, none⟩ ∧
    (check_website_changes em cs cmp sne now store url (some content)).2 url =
      some { r with
        last_checked := now
        check_count := r.check_count + 1
        content_length := content.length } ∧
    (∀ u, u ≠ url →
      (check_website_changes em cs cmp sne now store url (some content)).2 u = store u) ∧
    ∀ steps : List (String × String),
      (∀ p ∈ steps, calculate_content_hash p.1 = r.content_hash ∧
        calculate_meta_hash (em p.1) = r.meta_hash) →
      ∃ r', run_checks em cs cmp sne url store steps url = some r' ∧
        r'.last_changed = r.last_changed := by
  have hstep := check_no_change_step em cs cmp sne now store url content r h hc hm
  refine ⟨by rw [hstep], by rw [hstep]; simp, ?_, ?_⟩
  · intro u hu
    rw [hstep]
    simp [hu]
  · intro steps hsteps
    obtain ⟨r', h1, _, _, h4⟩ :=
      run_checks_no_change em cs cmp sne url steps store r h hsteps
    exact ⟨r', h1, h4⟩

/-- C4 (witness): a concrete no-change pass over a one-record store whose
stored digests are exactly the current ones. -/
theorem check_no_change_frame_witness :
    ((fun u => if u = "u" then
        some (⟨calculate_content_hash "a", calculate_meta_hash ⟨"", "", ""⟩,
          ⟨"", "", ""⟩, "T0", "Never", 1, 5, "a", ()⟩ : Record Unit)
      else none : Store Unit) "u" =
      some ⟨calculate_content_hash "a", calculate_meta_hash ⟨"", "", ""⟩,
        ⟨"", "", ""⟩, "T0", "Never", 1, 5, "a", ()⟩) ∧
    (check_website_changes (fun _ => (⟨"", "", ""⟩ : MetaInfo)) (fun _ _ _ => ())
        (fun _ _ => "") (fun _ => false) "T1"
        (fun u => if u = "u" then
          some (⟨calculate_content_hash "a", calculate_meta_hash ⟨"", "", ""⟩,
            ⟨"", "", ""⟩, "T0", "Never", 1, 5, "a", ()⟩ : Record Unit)
        else none) "u" (some "a")).1 =
      ⟨false, false, false, "no_change", "No changes detected (check #" ++
        toString (5 + 1) ++ ")", none, none⟩ :=
  ⟨rfl,
   (check_no_change_frame (fun _ => ⟨"", "", ""⟩) (fun _ _ _ => ()) (fun _ _ => "")
     (fun _ => false) "T1" _ "u" "a" _ rfl rfl rfl).1⟩

/-- Helper: the exact outcome of a first observation (no record yet). -/
theorem check_first_time_step {Snap : Type}
    (em : String → MetaInfo) (cs : String → String → String → Snap)
    (cmp : Snap → Snap → String) (sne : Snap → Bool)
    (now : String) (store : Store Snap) (url content : String)
    (h : store url = none) :
    (check_website_changes em cs cmp sne now store url (some content)).1 =
      ⟨false, false, false, "first_time", "Baseline established", none, none⟩ ∧
    (check_website_changes em cs cmp sne now store url (some content)).2 url =
      some ⟨calculate_content_hash content, calculate_meta_hash (em content),
        em content, now, "Never", content.length, 1, pyTake 5000 content,
        cs content url "baseline"⟩ := by
  constructor
  · simp [check_website_changes, h]
  · simp [check_website_changes, h]

/-- Helper: the exact outcome of a pass where only the meta digest differs
from the stored one. -/
theorem check_meta_only_step {Snap : Type}
    (em : String → MetaInfo) (cs : String → String → String → Snap)
    (cmp : Snap → Snap → String) (sne : Snap → Bool)
    (now : String) (store : Store Snap) (url content : String)
    (r : Record Snap) (h : store url = some r)
    (hm : calculate_meta_hash (em content) ≠ r.meta_hash)
    (hc : calculate_content_hash content = r.content_hash) :
    (check_website_changes em cs cmp sne now store url (some content)).1 =
      ⟨true, true, false, "meta_only",
        _get_meta_change_details r.meta_info (em content),
        some r.last_snapshot, some (cs content url "after")⟩ ∧
    (check_website_changes em cs cmp sne now store url (some content)).2 url =
      some { r with
        content_hash := calculate_content_hash content
        meta_hash := calculate_meta_hash (em content)
        meta_info := em content
        last_checked := now
        last_changed := now
        check_count := r.check_count + 1
        content_length := content.length
        last_content := pyTake 5000 content
        last_snapshot := cs content url "after" } ∧
    ∀ u, u ≠ url →
      (check_website_changes em cs cmp sne now store url (some content)).2 u = store u := by
  have hm' : (calculate_meta_hash (em content) != r.meta_hash) = true :=
    bne_iff_ne.mpr hm
  have hc' : (calculate_content_hash content != r.content_hash) = false := by
    rw [hc]
    exact bne_self_eq_false _
  refine ⟨?_, ?_, ?_⟩
  · simp [check_website_changes, h, hm', hc']
  · simp [check_website_changes, h, hm', hc']
  · intro u hu
    simp [check_website_changes, h, hm', hc', hu]

/-- C5 (amended): when only the meta digest differs, the check reports
`meta_only` with `meta_changed = true` and `content_changed = false` and the
meta-field diff as details; the record is rewritten with the new meta hash
and meta info, both timestamps, the incremented counter and the content
length, and — unlike the claim — also with a fresh `last_content` and a
fresh `last_snapshot`, because the classifier refreshes those on every
detected change; other URLs are untouched. -/
theorem check_meta_only_updates {Snap : Type}
    (em : String → MetaInfo) (cs : String → String → String → Snap)
    (cmp : Snap → Snap → String) (sne : Snap → Bool)
    (now : String) (store : Store Snap) (url content : String)
    (r : Record Snap) (h : store url = some r)
    (hm : calculate_meta_hash (em content) ≠ r.meta_hash)
    (hc : calculate_content_hash content = r.content_hash) :
    (check_website_changes em cs cmp sne now store url (some content)).1 =
      ⟨true, true, false, "meta_only",
        _get_meta_change_details r.meta_info (em content),
        some r.last_snapshot, some (cs content url "after")⟩ ∧
    (check_website_changes em cs cmp sne now store url (some content)).2 url =
      some { r with
        content_hash := calculate_content_hash content
        meta_hash := calculate_meta_hash (em content)
        meta_info := em content
        last_checked := now
        last_changed := now
        check_count := r.check_count + 1
        content_length := content.length
        last_content := pyTake 5000 content
        last_snapshot := cs content url "after" } ∧
    ∀ u, u ≠ url →
      (check_website_changes em cs cmp sne now store url (some content)).2 u = store u :=
  check_meta_only_step em cs cmp sne now store url content r h hm hc

/-- C5 (witness): the amended theorem applied to a concrete meta-only pass. -/
theorem check_meta_only_updates_witness :
    ((fun u => if u = "u" then some c5wr else none : Store Unit) "u" = some c5wr) ∧
    calculate_meta_hash ((fun _ => (⟨"", "", ""⟩ : MetaInfo)) "a") ≠ c5wr.meta_hash ∧
    calculate_content_hash "a" = c5wr.content_hash ∧
    (check_website_changes (fun _ => (⟨"", "", ""⟩ : MetaInfo)) (fun _ _ _ => ())
        (fun _ _ => "") (fun _ => false) "T1"
        (fun u => if u = "u" then some c5wr else none) "u" (some "a")).1.change_type =
      "meta_only" :=
  ⟨rfl, by decide, rfl,
   congrArg ChangeResult.change_type
     (check_meta_only_updates (fun _ => ⟨"", "", ""⟩) (fun _ _ _ => ()) (fun _ _ => "")
       (fun _ => false) "T1" (fun u => if u = "u" then some c5wr else none) "u" "a"
       c5wr rfl (by decide) rfl).1⟩

/-- C5 (counterexample): a meta-only pass does not leave `last_content` and
`last_snapshot` unchanged — the classifier refreshes both on every detected
change, including `meta_only`. -/
theorem check_meta_only_mutates_snapshot_fields :
    c5check2.1.change_type = "meta_only" ∧
    c5check2.1.content_changed = false ∧
    (c5check2.2 "u").map Record.last_content ≠ (c5store1 "u").map Record.last_content ∧
    (c5check2.2 "u").map Record.last_snapshot ≠ (c5store1 "u").map Record.last_snapshot := by
  have h1 : c5store1 "u" =
      some ⟨calculate_content_hash "a b", calculate_meta_hash (c5em "a b"),
        c5em "a b", "T1", "Never", ("a b" : String).length, 1,
        pyTake 5000 "a b", "baseline"⟩ :=
    (check_first_time_step c5em (fun _ _ k => k) (fun _ _ => "") (fun _ => true)
      "T1" (fun _ => none) "u" "a b" rfl).2
  have hstep := check_meta_only_step c5em (fun _ _ k => k) (fun _ _ => "")
    (fun _ => true) "T2" c5store1 "u" "a  b" _ h1
    (by
      show calculate_meta_hash (c5em "a  b") ≠ calculate_meta_hash (c5em "a b")
      decide)
    (by
      show calculate_content_hash "a  b" = calculate_content_hash "a b"
      exact congrArg md5hex (by decide))
  obtain ⟨hres, hrec, _⟩ := hstep
  have e2 : c5check2.2 "u" = _ := hrec
  refine ⟨?_, ?_, ?_, ?_⟩
  · exact congrArg ChangeResult.change_type hres
  · exact congrArg ChangeResult.content_changed hres
  · rw [e2, h1]
    decide
  · rw [e2, h1]
    decide

/-- Helper: `bucketUnion` of the empty grouping. -/
theorem bucketUnion_nil : bucketUnion [] = [] := rfl

/-- Helper: `bucketUnion` of a cons. -/
theorem bucketUnion_cons (e : String × GroupBucket) (l : List (String × GroupBucket)) :
    bucketUnion (e :: l) = e.2.changes ++ bucketUnion l := rfl

/-- Helper: inserting one change into the buckets adds exactly that change,
up to position, to the union of all buckets. -/
theorem bucketUnion_addToBucket (k n : String) (c : ChangeEntry) :
    ∀ acc, List.Perm (bucketUnion (addToBucket acc k n c)) (bucketUnion acc ++ [c]) := by
  intro acc
  induction acc with
  | nil => simp [addToBucket, bucketUnion_cons, bucketUnion_nil]
  | cons e rest ih =>
    by_cases hk : e.1 = k
    · rw [addToBucket, if_pos hk, bucketUnion_cons, bucketUnion_cons,
        List.append_assoc, List.append_assoc]
      exact List.Perm.append_left e.2.changes List.perm_append_comm
    · rw [addToBucket, if_neg hk, bucketUnion_cons, bucketUnion_cons,
        List.append_assoc]
      exact List.Perm.append_left e.2.changes ih

/-- Helper: folding a list of changes into buckets appends, up to position,
exactly those changes to the union of all buckets. -/
theorem bucketUnion_foldl (url_groups : List (String × GroupData)) :
    ∀ (changes : List ChangeEntry) (acc : List (String × GroupBucket)),
      List.Perm
        (bucketUnion (changes.foldl
          (fun acc c =>
            addToBucket acc (bucketFor url_groups c.url).1
              (bucketFor url_groups c.url).2 c)
          acc))
        (bucketUnion acc ++ changes) := by
  intro changes
  induction changes with
  | nil => intro acc; simp
  | cons c cs ih =>
    intro acc
    rw [List.foldl_cons]
    refine List.Perm.trans (ih _) ?_
    refine List.Perm.trans
      (List.Perm.append_right cs
        (bucketUnion_addToBucket (bucketFor url_groups c.url).1
          (bucketFor url_groups c.url).2 c acc)) ?_
    rw [List.append_assoc, List.singleton_append]

/-- Helper: inserting a change under its own key preserves the invariant
that every change sits in the bucket of its key. -/
theorem addToBucket_placement (f : ChangeEntry → String) (k n : String)
    (c : ChangeEntry) (hc : f c = k) :
    ∀ acc, (∀ e ∈ acc, ∀ x ∈ e.2.changes, f x = e.1) →
      ∀ e ∈ addToBucket acc k n c, ∀ x ∈ e.2.changes, f x = e.1 := by
  intro acc
  induction acc with
  | nil =>
    intro _ e he x hx
    simp only [addToBucket, List.mem_singleton] at he
    subst he
    simp only [List.mem_singleton] at hx
    subst hx
    exact hc
  | cons a rest ih =>
    intro hacc e he x hx
    by_cases hk : a.1 = k
    · rw [addToBucket, if_pos hk] at he
      rcases List.mem_cons.1 he with he | he
      · subst he
        simp only at hx
        rcases List.mem_append.1 hx with hx | hx
        · exact hacc a (List.mem_cons_self _ _) x hx
        · simp only [List.mem_singleton] at hx
          subst hx
          exact hc.trans hk.symm
      · exact hacc e (List.mem_cons_of_mem _ he) x hx
    · rw [addToBucket, if_neg hk] at he
      rcases List.mem_cons.1 he with he | he
      · subst he
        exact hacc e (List.mem_cons_self _ _) x hx
      · exact ih (fun e' he' => hacc e' (List.mem_cons_of_mem _ he')) e he x hx

/-- Helper: a key of the buckets after an insertion is an old key or the
inserted key. -/
theorem mem_keys_addToBucket (k n : String) (c : ChangeEntry) :
    ∀ acc q, q ∈ (addToBucket acc k n c).map Prod.fst →
      q ∈ acc.map Prod.fst ∨ q = k := by
  intro acc
  induction acc with
  | nil =>
    intro q hq
    simp [addToBucket] at hq
    exact Or.inr hq
  | cons a rest ih =>
    intro q hq
    by_cases hk : a.1 = k
    · rw [addToBucket, if_pos hk] at hq
      simp only [List.map_cons, List.mem_cons] at hq ⊢
      exact Or.inl hq
    · rw [addToBucket, if_neg hk] at hq
      simp only [List.map_cons, List.mem_cons] at hq ⊢
      rcases hq with hq | hq
      · exact Or.inl (Or.inl hq)
      · rcases ih q hq with h | h
        · exact Or.inl (Or.inr h)
        · exact Or.inr h

/-- Helper: insertion keeps the bucket keys distinct. -/
theorem keys_nodup_addToBucket (k n : String) (c : ChangeEntry) :
    ∀ acc, (acc.map Prod.fst).Nodup → ((addToBucket acc k n c).map Prod.fst).Nodup := by
  intro acc
  induction acc with
  | nil => intro _; simp [addToBucket]
  | cons a rest ih =>
    intro hnd
    rw [List.map_cons, List.nodup_cons] at hnd
    by_cases hk : a.1 = k
    · rw [addToBucket, if_pos hk, List.map_cons, List.nodup_cons]
      exact ⟨hnd.1, hnd.2⟩
    · rw [addToBucket, if_neg hk, List.map_cons, List.nodup_cons]
      refine ⟨fun hmem => ?_, ih hnd.2⟩
      rcases mem_keys_addToBucket k n c rest a.1 hmem with h | h
      · exact hnd.1 h
      · exact hk h

/-- Helper: the fold of `_group_changes_by_website` keeps every change in
the bucket of its own key and keeps the keys distinct. -/
theorem group_fold_inv (url_groups : List (String × GroupData)) :
    ∀ (changes : List ChangeEntry) (acc : List (String × GroupBucket)),
      (∀ e ∈ acc, ∀ x ∈ e.2.changes, (bucketFor url_groups x.url).1 = e.1) →
      (acc.map Prod.fst).Nodup →
      (∀ e ∈ changes.foldl
          (fun acc c =>
            addToBucket acc (bucketFor url_groups c.url).1
              (bucketFor url_groups c.url).2 c)
          acc,
        ∀ x ∈ e.2.changes, (bucketFor url_groups x.url).1 = e.1) ∧
      ((changes.foldl
          (fun acc c =>
            addToBucket acc (bucketFor url_groups c.url).1
              (bucketFor url_groups c.url).2 c)
          acc).map Prod.fst).Nodup := by
  intro changes
  induction changes with
  | nil => intro acc h1 h2; exact ⟨h1, h2⟩
  | cons c cs ih =>
    intro acc h1 h2
    rw [List.foldl_cons]
    exact ih _
      (addToBucket_placement (fun x => (bucketFor url_groups x.url).1)
        (bucketFor url_groups c.url).1 (bucketFor url_groups c.url).2 c rfl acc h1)
      (keys_nodup_addToBucket (bucketFor url_groups c.url).1
        (bucketFor url_groups c.url).2 c acc h2)

/-- C9 (amended): grouping is a partition of the input — the union of the
per-bucket change lists is, up to order, exactly the input list with its
multiplicities, every change sits in the bucket selected by `bucketFor`
(the first configured group containing its URL, except that a falsy group
key — the empty string — routes to the fixed ungrouped bucket, as does an
unmatched URL), and no bucket key occurs twice. -/
theorem group_changes_partition (url_groups : List (String × GroupData))
    (changes : List ChangeEntry) :
    List.Perm (bucketUnion (_group_changes_by_website url_groups changes)) changes ∧
    (∀ e ∈ _group_changes_by_website url_groups changes, ∀ x ∈ e.2.changes,
      e.1 = (bucketFor url_groups x.url).1) ∧
    ((_group_changes_by_website url_groups changes).map Prod.fst).Nodup := by
  refine ⟨?_, ?_, ?_⟩
  · have h := bucketUnion_foldl url_groups changes []
    simpa [_group_changes_by_website, bucketUnion_nil] using h
  · intro e he x hx
    exact ((group_fold_inv url_groups changes [] (by simp) (by simp)).1 e he x hx).symm
  · exact (group_fold_inv url_groups changes [] (by simp) (by simp)).2

/-- C9 (witness): the partition theorem applied to one group and one change,
its membership hypotheses discharged at the concrete bucket. -/
theorem group_changes_partition_witness :
    List.Perm
      (bucketUnion (_group_changes_by_website [("g", ⟨"G", ["u"]⟩)] [⟨"u", "i"⟩]))
      [⟨"u", "i"⟩] ∧
    ("g", (⟨"G", [⟨"u", "i"⟩]⟩ : GroupBucket)).1 =
      (bucketFor [("g", ⟨"G", ["u"]⟩)] (⟨"u", "i"⟩ : ChangeEntry).url).1 :=
  ⟨(group_changes_partition [("g", ⟨"G", ["u"]⟩)] [⟨"u", "i"⟩]).1,
   (group_changes_partition [("g", ⟨"G", ["u"]⟩)] [⟨"u", "i"⟩]).2.1
     ("g", ⟨"G", [⟨"u", "i"⟩]⟩) (by decide) ⟨"u", "i"⟩ (by decide)⟩

/-- C9 (counterexample): the first configured group matches the changed URL,
yet the change is not placed in that group's list — the empty group key is
falsy in `if not group_key:`, so the change lands in the ungrouped bucket
and no bucket for the matching group exists at all. -/
theorem group_changes_empty_key_goes_ungrouped :
    c9groups.find? (fun g => g.2.urls.contains "u") = some ("", ⟨"G", ["u"]⟩) ∧
    _group_changes_by_website c9groups c9changes =
      [("ungrouped", ⟨"Ungrouped Sites", [⟨"u", "i"⟩]⟩)] := by
  exact ⟨by decide, by decide⟩

end WebsiteTracker
